import Mathlib

/-!
Verification of the Ptolemaea defence-profile pipeline
(`scripts/create_defence_profile_direct.py` and
`scripts/extract_unresolved_patterns.py`).

Python strings are modelled as Lean `String` (a structure over `List Char`),
and the string manipulations of the source are implemented over the
underlying character lists.  Python `int` becomes `Int`, and the float
ratios of the BLAST metric filter become exact rationals `ℚ` (built with the
kernel-reducible constructor `Rat.divInt`; bridging lemmas relate them to
ordinary division and the decimal literals of the source).
-/

namespace Ptolemaea

/-- Python truthiness for an optional string field: `None` and `""` are falsy. -/
def truthy : Option String → Bool
  | none => false
  | some s => s != ""

/-- Python `f"{x}"` rendering of an optional string (`None` prints as `"None"`). -/
def pyStr : Option String → String
  | none => "None"
  | some s => s

/-- Python `s.strip()`: drop whitespace from both ends. -/
def pyTrim (s : String) : String :=
  ⟨((s.data.dropWhile Char.isWhitespace).reverse.dropWhile Char.isWhitespace).reverse⟩

/-- Python `s.startswith(p)`. -/
def pyStartsWith (s p : String) : Bool := p.data.isPrefixOf s.data

/-- Python `s.endswith(p)`. -/
def pyEndsWith (s p : String) : Bool := p.data.isSuffixOf s.data

/-- Python `sub in s` (substring containment). -/
def pyInStr (sub s : String) : Bool := decide (sub.data <:+: s.data)

/-- Python `c in s` for a single character. -/
def pyHasChar (c : Char) (s : String) : Bool := s.data.contains c

/-- Match a literal at the head of the input, returning the rest (a regex literal). -/
def dropLit (p s : String) : Option String :=
  if p.data.isPrefixOf s.data then some ⟨s.data.drop p.data.length⟩ else none

/-- Match one-or-more characters of a class at the head of the input
(a regex `[...]+`), returning the matched run and the rest. -/
def takeClass (f : Char → Bool) (s : String) : Option (String × String) :=
  let t := s.data.takeWhile f
  if t.isEmpty then none else some (⟨t⟩, ⟨s.data.dropWhile f⟩)

/-- Numeric value of a digit string (Python `int(...)` on a `[0-9]+` match). -/
def natOfDigits (s : String) : Nat :=
  s.data.foldl (fun a c => a * 10 + (c.toNat - '0'.toNat)) 0

/-- Python `str.split(c)`, on the underlying character list. -/
def splitChar (c : Char) : List Char → List (List Char)
  | [] => [[]]
  | a :: as =>
    if a = c then [] :: splitChar c as
    else
      match splitChar c as with
      | [] => [[a]]
      | h :: t => (a :: h) :: t

/-- Exceptions of `clean_trailing_underscore_one`: systems legitimately ending in `_1`
(`GAO_19` is listed in the source but is unaffected either way). -/
def exceptions : List String := ["DISARM_1", "PD-T7-5_1", "GAO_19"]

/-- Python `clean_trailing_underscore_one`: remove a trailing `_1` from classifier-reported
defense system names, except for the names on the exception list. -/
def clean_trailing_underscore_one (name : String) : String :=
  if name ∈ exceptions then name
  else if pyEndsWith name "_1" then ⟨name.data.take (name.data.length - 2)⟩
  else name

/-- Python `clean_defense_system_name`: remove a trailing `_1` from defense system names
that appear in BLAST results.  Note: unlike `clean_trailing_underscore_one`,
this rule has no exception list. -/
def clean_defense_system_name (name : String) : String :=
  if pyEndsWith name "_1" then ⟨name.data.take (name.data.length - 2)⟩ else name

/-- Python `extract_defense_system_from_blast_id`: take the part after the first `#`
of a `locustag#defensesystem` identifier and strip a trailing `_1`. -/
def extract_defense_system_from_blast_id (blast_id : String) : String :=
  if pyHasChar '#' blast_id then
    match splitChar '#' blast_id.data with
    | _ :: second :: _ => clean_defense_system_name ⟨second⟩
    | _ => blast_id
  else blast_id

/-- Python `extract_defense_name_from_blast`: name before the parenthesised metrics of a
BLAST summary string (regex `^([^(]+)`, stripped); `No_hit` means no evidence;
a string with no match (empty, or starting with `(`) is returned unchanged. -/
def extract_defense_name_from_blast (blast_result : String) : Option String :=
  if blast_result == "No_hit" then none
  else
    let pre : List Char := blast_result.data.takeWhile (fun c => c != '(')
    if pre.isEmpty then some blast_result else some (pyTrim ⟨pre⟩)

/-- Parsed forward-BLAST metrics (the dict built by `extract_blast_metrics`).
`pident` and `evalue` keep the raw matched text: the program never uses their
numeric values, only the three integer lengths. -/
structure BlastMetrics where
  name : String
  pident : String
  evalue : String
  length : Int
  qlen : Int
  slen : Int
  deriving DecidableEq, Repr

/-- Python `extract_blast_metrics`: parse
`name(pident%, E=evalue, L=length, Q=qlen, S=slen)` per the source regex
`([^(]+)\(([0-9.]+)%, E=([0-9.e+-]+), L=([0-9]+), Q=([0-9]+), S=([0-9]+)\)`
(`re.match`: anchored at the start only, trailing text is ignored). -/
def extract_blast_metrics (blast_result : Option String) : Option BlastMetrics :=
  match blast_result with
  | none => none
  | some s =>
    if s == "No_hit" then none
    else
      (takeClass (fun c => c != '(') s).bind fun (name, r) =>
      (dropLit "(" r).bind fun r =>
      (takeClass (fun c => c.isDigit || c == '.') r).bind fun (pident, r) =>
      (dropLit "%, E=" r).bind fun r =>
      (takeClass (fun c => c.isDigit || c == '.' || c == 'e' || c == '+' || c == '-') r).bind
        fun (evalue, r) =>
      (dropLit ", L=" r).bind fun r =>
      (takeClass Char.isDigit r).bind fun (ls, r) =>
      (dropLit ", Q=" r).bind fun r =>
      (takeClass Char.isDigit r).bind fun (qs, r) =>
      (dropLit ", S=" r).bind fun r =>
      (takeClass Char.isDigit r).bind fun (ss, r) =>
      (dropLit ")" r).bind fun _ =>
      some { name := pyTrim name, pident := pident, evalue := evalue,
             length := (natOfDigits ls : Int), qlen := (natOfDigits qs : Int),
             slen := (natOfDigits ss : Int) }

/-- The literal `0.8` of the source, as an exact rational. -/
def ratio_lower : ℚ := Rat.divInt 4 5

/-- The literal `1.25` of the source, as an exact rational. -/
def ratio_upper : ℚ := Rat.divInt 5 4

theorem ratio_lower_eq : ratio_lower = 0.8 := by
  norm_num [ratio_lower, Rat.divInt_eq_div]

theorem ratio_upper_eq : ratio_upper = 1.25 := by
  norm_num [ratio_upper, Rat.divInt_eq_div]

/-- Exact rational division, written on numerators/denominators so that it is
kernel-reducible (`Rat.div` itself is irreducible); equal to `a / b`. -/
def ratDiv (a b : ℚ) : ℚ := Rat.divInt (a.num * b.den) (a.den * b.num)

theorem ratDiv_eq (a b : ℚ) : ratDiv a b = a / b := by
  rcases eq_or_ne b 0 with rfl | hb
  · simp [ratDiv, Rat.divInt_eq_div]
  · have hbn : (b.num : ℚ) ≠ 0 := by
      exact_mod_cast Rat.num_ne_zero.mpr hb
    have hadQ : ((a.den : ℚ)) ≠ 0 := by exact_mod_cast a.den_nz
    have hbdQ : ((b.den : ℚ)) ≠ 0 := by exact_mod_cast b.den_nz
    have ha' : a * (a.den : ℚ) = (a.num : ℚ) := by
      calc a * (a.den : ℚ) = ((a.num : ℚ) / a.den) * a.den := by rw [Rat.num_div_den]
        _ = (a.num : ℚ) := div_mul_cancel₀ _ hadQ
    have hb' : b * (b.den : ℚ) = (b.num : ℚ) := by
      calc b * (b.den : ℚ) = ((b.num : ℚ) / b.den) * b.den := by rw [Rat.num_div_den]
        _ = (b.num : ℚ) := div_mul_cancel₀ _ hbdQ
    rw [ratDiv, Rat.divInt_eq_div]
    push_cast
    rw [div_eq_div_iff (mul_ne_zero hadQ hbn) hb, ← ha', ← hb']
    ring

/-- The `Q/S` ratio of `passes_blast_filtering` (`Q / S if S > 0 else 0`). -/
def qs_ratio (m : BlastMetrics) : ℚ :=
  if 0 < m.slen then Rat.divInt m.qlen m.slen else 0

/-- The `avg_length = (Q + S) / 2` of `passes_blast_filtering`. -/
def avg_length (m : BlastMetrics) : ℚ := Rat.divInt (m.qlen + m.slen) 2

/-- The alignment-coverage ratio of `passes_blast_filtering`
(`L / avg_length if avg_length > 0 else 0`). -/
def coverage (m : BlastMetrics) : ℚ :=
  if 0 < avg_length m then ratDiv (Rat.divInt m.length 1) (avg_length m) else 0

/-- Fixed-point rendering of a rational to three decimal places, on the exact
value (Python's `f"{x:.3f}"` rounds half-to-even on the binary float; for the
non-negative ratios at hand the two agree away from representation noise). -/
def formatQ3 (q : ℚ) : String :=
  let N : Int := 1000 * q.num
  let D : Int := (q.den : Int)
  let f : Int := N.fdiv D
  let r : Int := N - f * D
  let n3 : Int := if 2 * r < D then f else if D < 2 * r then f + 1
                  else if f % 2 = 0 then f else f + 1
  let ip : Int := n3.fdiv 1000
  let fr : Int := n3 - ip * 1000
  let frs : String := toString fr
  let pad : String := if fr < 10 then "00" else if fr < 100 then "0" else ""
  toString ip ++ "." ++ pad ++ frs

/-- Python `passes_blast_filtering`: admissibility filter for BLAST-only hits.
Both the query/subject length ratio and the alignment coverage must lie in
`[0.8, 1.25]`; returns pass/fail plus a reason string. -/
def passes_blast_filtering (forward_metrics : Option BlastMetrics) : Bool × String :=
  match forward_metrics with
  | none => (false, "No metrics")
  | some m =>
    if ¬(ratio_lower ≤ qs_ratio m ∧ qs_ratio m ≤ ratio_upper) then
      (false, "Q/S ratio " ++ formatQ3 (qs_ratio m) ++ " outside 0.8-1.25")
    else if ¬(ratio_lower ≤ coverage m ∧ coverage m ≤ ratio_upper) then
      (false, "Coverage " ++ formatQ3 (coverage m) ++ " outside 0.8-1.25")
    else (true, "Passed filtering")

/-- One per-protein evidence record (`protein_results[protein_id]`): the six
optional fields filled in by the evidence aggregator. -/
structure ProteinData where
  padloc_orig : Option String
  padloc_mapped : Option String
  df_orig : Option String
  df_mapped : Option String
  forward_blast : Option String
  reverse_blast : Option String
  deriving DecidableEq, Repr

/-- The closed set of consensus statuses. -/
inductive Status where
  | AGREE | RESOLVED | CONFLICT | MAPPING | SINGLE | BLAST | FILTERED | ERROR
  deriving DecidableEq, Repr

/-- The `(final_name, status, explanation)` triple returned by `determine_consensus`. -/
structure ConsensusResult where
  final_name : Option String
  status : Status
  explanation : String
  deriving DecidableEq, Repr

/-- The name extracted from a BLAST summary field
(`extract_defense_name_from_blast(x) if x else None`). -/
def blastName : Option String → Option String
  | none => none
  | some s => if s == "" then none else extract_defense_name_from_blast s

/-- Forward-search name of an evidence record. -/
def fwdName (e : ProteinData) : Option String := blastName e.forward_blast

/-- Reverse-search name of an evidence record. -/
def revName (e : ProteinData) : Option String := blastName e.reverse_blast

/-- Python `has_padloc = padloc_orig is not None`. -/
def has_padloc (e : ProteinData) : Bool := e.padloc_orig.isSome

/-- Python `has_df = df_orig is not None`. -/
def has_df (e : ProteinData) : Bool := e.df_orig.isSome

/-- Python `has_forward = forward_name is not None`. -/
def has_forward (e : ProteinData) : Bool := (fwdName e).isSome

/-- Python `has_reverse = reverse_name is not None`. -/
def has_reverse (e : ProteinData) : Bool := (revName e).isSome

/-- A canonical mapping is present when the mapped field is neither `None` nor
the `"No_mapping"` sentinel. -/
def hasMapping : Option String → Bool
  | none => false
  | some s => s != "No_mapping"

/-- Python `padloc_has_mapping`. -/
def padloc_has_mapping (e : ProteinData) : Bool := hasMapping e.padloc_mapped

/-- Python `df_has_mapping`. -/
def df_has_mapping (e : ProteinData) : Bool := hasMapping e.df_mapped

/-- Python `padloc_consensus = padloc_mapped if padloc_has_mapping else None`. -/
def padloc_consensus (e : ProteinData) : Option String :=
  if padloc_has_mapping e then e.padloc_mapped else none

/-- Python `df_consensus = df_mapped if df_has_mapping else None`. -/
def df_consensus (e : ProteinData) : Option String :=
  if df_has_mapping e then e.df_mapped else none

/-- The voting guard `consensus and name == consensus` (Python truthiness:
an empty-string consensus never collects votes). -/
def supports (consensus : Option String) (n : String) : Bool :=
  match consensus with
  | none => false
  | some s => s != "" && n == s

/-- One search direction's contribution to the vote: (padloc votes, finder
votes, evidence messages).  Mirrors the `if/elif/else` of the source:
a padloc match shadows a finder match. -/
def dirVote (label : String) (pc dc : Option String) : Option String → Nat × Nat × List String
  | none => (0, 0, [])
  | some f =>
    if supports pc f then (1, 0, [label ++ " supports PADLOC (" ++ f ++ ")"])
    else if supports dc f then (0, 1, [label ++ " supports DefenseFinder (" ++ f ++ ")"])
    else (0, 0, [label ++ " supports neither (" ++ f ++ ")"])

/-- Python `padloc_votes`: 1 self-vote plus the search-direction votes. -/
def padloc_votes (e : ProteinData) : Nat :=
  1 + (dirVote "Forward" (padloc_consensus e) (df_consensus e) (fwdName e)).1
    + (dirVote "Reverse" (padloc_consensus e) (df_consensus e) (revName e)).1

/-- Python `df_votes`: 1 self-vote plus the search-direction votes. -/
def df_votes (e : ProteinData) : Nat :=
  1 + (dirVote "Forward" (padloc_consensus e) (df_consensus e) (fwdName e)).2.1
    + (dirVote "Reverse" (padloc_consensus e) (df_consensus e) (revName e)).2.1

/-- The `blast_evidence` message list accumulated during voting. -/
def blast_evidence (e : ProteinData) : List String :=
  (dirVote "Forward" (padloc_consensus e) (df_consensus e) (fwdName e)).2.2
    ++ (dirVote "Reverse" (padloc_consensus e) (df_consensus e) (revName e)).2.2

/-- The two-sided composite placeholder over the original calls,
`(p::{padloc_orig}|d::{df_orig})`. -/
def composite_orig (e : ProteinData) : String :=
  "(p::" ++ pyStr e.padloc_orig ++ "|d::" ++ pyStr e.df_orig ++ ")"

/-- Python `determine_consensus`: the voting decision procedure, translated branch by
branch from the source. -/
def determine_consensus (e : ProteinData) : ConsensusResult :=
  if !(has_padloc e) && !(has_df e) then
    -- Case 1: BLAST-only hits
    if has_forward e && has_reverse e then
      if fwdName e == revName e then
        if (extract_blast_metrics e.forward_blast).isSome then
          if (passes_blast_filtering (extract_blast_metrics e.forward_blast)).1 then
            ⟨fwdName e, Status.BLAST, "BLAST-only hit passed filtering: " ++
              (passes_blast_filtering (extract_blast_metrics e.forward_blast)).2⟩
          else
            ⟨none, Status.FILTERED, "BLAST-only hit failed filtering: " ++
              (passes_blast_filtering (extract_blast_metrics e.forward_blast)).2⟩
        else ⟨none, Status.FILTERED, "Could not parse forward BLAST metrics"⟩
      else
        ⟨none, Status.FILTERED, "BLAST names disagree: " ++ pyStr (fwdName e) ++
          " vs " ++ pyStr (revName e)⟩
    else ⟨none, Status.FILTERED, "Insufficient BLAST evidence (need both forward and reverse)"⟩
  else if has_padloc e && !(has_df e) then
    -- Case 2: PADLOC only
    if padloc_has_mapping e then ⟨e.padloc_mapped, Status.SINGLE, "PADLOC only with mapping"⟩
    else ⟨some ("(p::" ++ pyStr e.padloc_orig ++ "|d::)"), Status.MAPPING,
      "PADLOC only without mapping"⟩
  else if !(has_padloc e) && has_df e then
    -- Case 2: DefenseFinder only
    if df_has_mapping e then ⟨e.df_mapped, Status.SINGLE, "DefenseFinder only with mapping"⟩
    else ⟨some ("(p::|d::" ++ pyStr e.df_orig ++ ")"), Status.MAPPING,
      "DefenseFinder only without mapping"⟩
  else if has_padloc e && has_df e then
    -- Case 3: both tools have hits
    if padloc_has_mapping e || df_has_mapping e then
      if padloc_has_mapping e && df_has_mapping e && (e.padloc_mapped == e.df_mapped) then
        ⟨e.padloc_mapped, Status.AGREE, "Both tools agree on consensus"⟩
      else
        if padloc_votes e > df_votes e then
          if padloc_has_mapping e then
            ⟨e.padloc_mapped, Status.RESOLVED,
              "PADLOC wins voting " ++ toString (padloc_votes e) ++ "vs" ++
                toString (df_votes e) ++ ": " ++
                String.intercalate "; " (blast_evidence e)⟩
          else
            ⟨some (composite_orig e), Status.MAPPING,
              "PADLOC wins voting but no mapping: " ++
                String.intercalate "; " (blast_evidence e)⟩
        else if df_votes e > padloc_votes e then
          if df_has_mapping e then
            ⟨e.df_mapped, Status.RESOLVED,
              "DefenseFinder wins voting " ++ toString (df_votes e) ++ "vs" ++
                toString (padloc_votes e) ++ ": " ++
                String.intercalate "; " (blast_evidence e)⟩
          else
            ⟨some (composite_orig e), Status.MAPPING,
              "DefenseFinder wins voting but no mapping: " ++
                String.intercalate "; " (blast_evidence e)⟩
        else
          if padloc_has_mapping e && df_has_mapping e then
            ⟨some ("(p::" ++ pyStr e.padloc_mapped ++ "|d::" ++ pyStr e.df_mapped ++ ")"),
              Status.CONFLICT,
              "Tied votes " ++ toString (padloc_votes e) ++ "vs" ++
                toString (df_votes e) ++ ": " ++
                String.intercalate "; " (blast_evidence e)⟩
          else
            ⟨some (composite_orig e), Status.MAPPING,
              "Tied votes with mapping issues: " ++
                String.intercalate "; " (blast_evidence e)⟩
    else
      ⟨some (composite_orig e), Status.MAPPING, "Both tools without mapping"⟩
  else ⟨none, Status.ERROR, "Unexpected case in consensus logic"⟩

/-- The classification lookup built from the master key: rows of
`(Novel_subtypes, Novel_types, Defense_outcome)`. -/
abbrev ClassLookup := List (String × String × String)

/-- Dictionary lookup with last-write-wins semantics (a later row with the
same key shadows an earlier one, as in the Python dict construction). -/
def clookup (t : ClassLookup) (k : String) : Option (String × String) :=
  match t with
  | [] => none
  | (k', ty, oc) :: rest =>
    match clookup rest k with
    | some r => some r
    | none => if k == k' then some (ty, oc) else none

/-- The composite regex `\(p::([^|]*)\|d::([^)]*)\)` under `re.match`
(anchored at the start, trailing text ignored): returns the two raw groups. -/
def parseComposite (s : String) : Option (String × String) :=
  (dropLit "(p::" s).bind fun r1 =>
  let g1 : String := ⟨r1.data.takeWhile (fun c => c != '|')⟩
  (dropLit "|d::" ⟨r1.data.drop g1.data.length⟩).bind fun r2 =>
  let g2 : String := ⟨r2.data.takeWhile (fun c => c != ')')⟩
  (dropLit ")" ⟨r2.data.drop g2.data.length⟩).bind fun _ =>
  some (g1, g2)

/-- Format one side of the composite classification: a truthy looked-up value
is kept, everything else becomes `UNMAPPED` for that side only. -/
def resolve_part (tag : String) (v : Option String) : String :=
  match v with
  | some s => if s != "" then tag ++ s else tag ++ "UNMAPPED"
  | none => tag ++ "UNMAPPED"

/-- Python `lookup_final_classification`: resolve a final consensus name to
`(system type, system outcome)`, handling the composite `(p::…|d::…)` form. -/
def lookup_final_classification (final_consensus : String) (t : ClassLookup) :
    String × String :=
  if t.isEmpty then ("UNMAPPED_TYPE", "UNMAPPED_OUTCOME")
  else if pyStartsWith final_consensus "(p::" && pyInStr "|d::" final_consensus then
    match parseComposite final_consensus with
    | some (g1, g2) =>
      let pn : Option String := if pyTrim g1 == "" then none else some (pyTrim g1)
      let dn : Option String := if pyTrim g2 == "" then none else some (pyTrim g2)
      let ptype : Option String := pn.bind fun n => (clookup t n).map Prod.fst
      let pout : Option String := pn.bind fun n => (clookup t n).map Prod.snd
      let dtype : Option String := dn.bind fun n => (clookup t n).map Prod.fst
      let dout : Option String := dn.bind fun n => (clookup t n).map Prod.snd
      ("(" ++ resolve_part "p::" ptype ++ "|" ++ resolve_part "d::" dtype ++ ")",
       "(" ++ resolve_part "p::" pout ++ "|" ++ resolve_part "d::" dout ++ ")")
    | none => ("UNMAPPED_TYPE", "UNMAPPED_OUTCOME")
  else
    match clookup t final_consensus with
    | some pr => pr
    | none => ("UNMAPPED_TYPE", "UNMAPPED_OUTCOME")

/-- One row of the per-genome defence profile (`final_results` entry). -/
structure ProfileRow where
  protein_id : String
  padloc_original : String
  padloc_final : String
  deffind_original : String
  deffind_final : String
  fwd_blast : Option String
  rev_blast : Option String
  status : Status
  final_consensus : String
  explanation : String
  final_system_type : String
  final_system_subtype : String
  final_system_outcome : String
  deriving DecidableEq, Repr

/-- Python `x or 'No_hit'` on an optional string field. -/
def pyOrNoHit : Option String → String
  | none => "No_hit"
  | some s => if s == "" then "No_hit" else s

/-- The `padloc_final`/`deffind_final` column: the mapped value unless it is
`None` or `"No_mapping"`. -/
def finalOrNoHit : Option String → String
  | none => "No_hit"
  | some s => if s == "No_mapping" then "No_hit" else s

/-- The `fwd_blast`/`rev_blast` column: the extracted name when the raw field
is present (which may itself be `None`, i.e. a NaN cell), else `No_hit`. -/
def blastField : Option String → Option String
  | none => some "No_hit"
  | some s => extract_defense_name_from_blast s

/-- One iteration of the profile-writing loop of `main`: a protein with a
valid identifier and a non-`None` final name becomes a row; FILTERED/ERROR
proteins are dropped. -/
def profileRowFor (t : ClassLookup) (pe : String × ProteinData) : Option ProfileRow :=
  if pyTrim pe.1 == "" then none
  else
    match determine_consensus pe.2 with
    | ⟨some fn, st, expl⟩ =>
      some { protein_id := pe.1,
             padloc_original := pyOrNoHit pe.2.padloc_orig,
             padloc_final := finalOrNoHit pe.2.padloc_mapped,
             deffind_original := pyOrNoHit pe.2.df_orig,
             deffind_final := finalOrNoHit pe.2.df_mapped,
             fwd_blast := blastField pe.2.forward_blast,
             rev_blast := blastField pe.2.reverse_blast,
             status := st,
             final_consensus := fn,
             explanation := expl,
             final_system_type := (lookup_final_classification fn t).1,
             final_system_subtype := fn,
             final_system_outcome := (lookup_final_classification fn t).2 }
    | ⟨none, _, _⟩ => none

/-- The profile-writing loop of `main` over all proteins.  (The Python loop
visits identifiers in sorted order; order does not matter for the
properties proved below.) -/
def buildProfileRows (t : ClassLookup) (entries : List (String × ProteinData)) :
    List ProfileRow :=
  entries.filterMap (profileRowFor t)

/-- Python `extract_system_name_from_blast` of the pattern extractor: system name
before the parenthesised metrics, with `No_hit` passed through. -/
def extract_system_name_from_blast (blast_str : String) : String :=
  if blast_str == "" || blast_str == "No_hit" then "No_hit"
  else
    let pre : List Char := blast_str.data.takeWhile (fun c => c != '(')
    if pre.isEmpty then blast_str else pyTrim ⟨pre⟩

/-- Python `extract_genome_id`: the part of a `genome_id@locus_tag` identifier
before the `@`. -/
def extract_genome_id (protein_id : String) : String :=
  if pyHasChar '@' protein_id then ⟨protein_id.data.takeWhile (fun c => c != '@')⟩
  else protein_id

/-- The 4-tuple annotation pattern (PADLOC, DefenseFinder, fwd name, rev name). -/
abbrev Pattern := String × String × String × String

/-- A missing/empty CSV cell reads as `No_hit`. -/
def cellOrNoHit (s : String) : String := if s == "" then "No_hit" else s

/-- A missing/empty BLAST cell reads as `No_hit`; otherwise the name is
re-extracted from the summary string. -/
def blastCellName : Option String → String
  | none => "No_hit"
  | some s => if s == "" then "No_hit" else extract_system_name_from_blast s

/-- The pattern key of one problematic profile row (`group_by_pattern` body). -/
def patternOf (r : ProfileRow) : Pattern :=
  (cellOrNoHit r.padloc_original, cellOrNoHit r.deffind_original,
   blastCellName r.fwd_blast, blastCellName r.rev_blast)

/-- Append a protein id under its pattern, preserving first-seen pattern order
(the Python `defaultdict`). -/
def addToPatterns : List (Pattern × List String) → Pattern → String →
    List (Pattern × List String)
  | [], p, pid => [(p, [pid])]
  | (q, ids) :: rest, p, pid =>
    if q = p then (q, ids ++ [pid]) :: rest
    else (q, ids) :: addToPatterns rest p pid

/-- Python `group_by_pattern`. -/
def group_by_pattern (rows : List ProfileRow) : List (Pattern × List String) :=
  rows.foldl (fun acc r => addToPatterns acc (patternOf r) r.protein_id) []

/-- One row of the curation template. -/
structure PatternRow where
  PADLOC : String
  DefenseFinder : String
  BLAST_fwd : String
  BLAST_rev : String
  protein_count : Nat
  example_proteins : String
  TYPE : String
  SUBTYPE : String
  OUTCOME : String
  deriving DecidableEq, Repr

/-- The `example_proteins` cell: up to five identifiers plus an overflow count. -/
def exampleProteins (ids : List String) : String :=
  let ex := String.intercalate ", " (ids.take 5)
  if ids.length > 5 then ex ++ ", ... (" ++ toString (ids.length - 5) ++ " more)" else ex

/-- Stable insertion step for the descending-count ordering. -/
def insertByCountDesc (x : Pattern × List String) :
    List (Pattern × List String) → List (Pattern × List String)
  | [] => [x]
  | y :: ys => if y.2.length < x.2.length then x :: y :: ys else y :: insertByCountDesc x ys

/-- Python `sorted(..., key=count, reverse=True)` (stable, descending). -/
def sortByCountDesc (l : List (Pattern × List String)) : List (Pattern × List String) :=
  l.foldl (fun acc x => insertByCountDesc x acc) []

/-- Python `create_unresolved_patterns_csv`: one curation row per pattern, ordered by
descending protein count, curation columns left blank. -/
def create_unresolved_patterns_csv (patterns : List (Pattern × List String)) :
    List PatternRow :=
  (sortByCountDesc patterns).map fun (p, ids) =>
    { PADLOC := p.1, DefenseFinder := p.2.1, BLAST_fwd := p.2.2.1, BLAST_rev := p.2.2.2,
      protein_count := ids.length, example_proteins := exampleProteins ids,
      TYPE := "", SUBTYPE := "", OUTCOME := "" }

/-- How a run of `extract_unresolved_patterns.py` terminates. -/
inductive ExtractOutcome where
  /-- Python `load_consensus_files` found no `*_defenceprofile.csv` file: error exit
  (`sys.exit(1)`) after an `ERROR` diagnostic. -/
  | fatalNoFiles
  /-- Profile files exist but contain no MAPPING/CONFLICT row: success exit
  (`sys.exit(0)`) with the "No problematic genes found!" message, and no
  curation file is written. -/
  | nothingToCurate
  /-- The curation template written to the output CSV. -/
  | wrote (rows : List PatternRow)
  deriving DecidableEq, Repr

/-- The problematic rows kept by `load_consensus_files`: status MAPPING or
CONFLICT, concatenated across all profile files. -/
def problematicRows (files : List (List ProfileRow)) : List ProfileRow :=
  (files.map (fun f => f.filter
    (fun r => r.status == Status.MAPPING || r.status == Status.CONFLICT))).flatten

/-- Python `main` of the pattern extractor, over the parsed profile files. -/
def extractor_main (files : List (List ProfileRow)) : ExtractOutcome :=
  if files.isEmpty then ExtractOutcome.fatalNoFiles
  else if (problematicRows files).isEmpty then ExtractOutcome.nothingToCurate
  else ExtractOutcome.wrote
    (create_unresolved_patterns_csv (group_by_pattern (problematicRows files)))

/-! ## Helper lemmas -/

theorem hasMapping_ne_none {m : Option String} (h : hasMapping m = true) : m ≠ none := by
  cases m <;> simp [hasMapping] at *

theorem hasMapping_exists {m : Option String} (h : hasMapping m = true) :
    ∃ s, m = some s ∧ s ≠ "No_mapping" := by
  cases m with
  | none => simp [hasMapping] at h
  | some s => exact ⟨s, rfl, by simpa [hasMapping] using h⟩

theorem isSome_ne_none {m : Option String} (h : m.isSome = true) : m ≠ none := by
  cases m <;> simp at *

/-! ## Claim C2: canonical agreement -/

/-- C2: whenever both classifiers have evidence, both have canonical mappings
and the mappings are identical, `determine_consensus` returns status AGREE
with the shared canonical value as final name, regardless of the search
evidence in the record. -/
theorem c2_agree (e : ProteinData) (hp : has_padloc e = true) (hd : has_df e = true)
    (hpm : padloc_has_mapping e = true) (hdm : df_has_mapping e = true)
    (heq : e.padloc_mapped = e.df_mapped) :
    determine_consensus e =
      ⟨e.padloc_mapped, Status.AGREE, "Both tools agree on consensus"⟩ := by
  unfold determine_consensus
  simp [hp, hd, hpm, hdm, heq]

/-- Witness for C2 at a concrete record. -/
theorem c2_agree_witness :
    determine_consensus
      { padloc_orig := some "cas_type_I-B", padloc_mapped := some "Cas_I-B",
        df_orig := some "CAS_Class1-Subtype-I-B", df_mapped := some "Cas_I-B",
        forward_blast := some "OtherSystem(90.0%, E=1.0e-20, L=200, Q=200, S=200)",
        reverse_blast := none } =
      ⟨some "Cas_I-B", Status.AGREE, "Both tools agree on consensus"⟩ :=
  c2_agree _ (by decide) (by decide) (by decide) (by decide) (by decide)

theorem hasMapping_eq_true {m : Option String} :
    hasMapping m = true ↔ m ≠ none ∧ m ≠ some "No_mapping" := by
  cases m <;> simp [hasMapping]

set_option maxHeartbeats 1600000 in
/-- The final name is `None` exactly on the FILTERED and ERROR statuses. -/
theorem final_name_none_iff (e : ProteinData) :
    (determine_consensus e).final_name = none ↔
      ((determine_consensus e).status = Status.FILTERED ∨
       (determine_consensus e).status = Status.ERROR) := by
  unfold determine_consensus
  split_ifs <;>
    simp_all [has_forward, has_reverse, padloc_has_mapping, df_has_mapping,
      hasMapping_eq_true, Option.isSome_iff_ne_none]

theorem profileRowFor_eq_some {t : ClassLookup} {pe : String × ProteinData}
    {r : ProfileRow} (h : profileRowFor t pe = some r) :
    r.protein_id = pe.1 ∧ pyTrim pe.1 ≠ "" ∧
      (determine_consensus pe.2).final_name = some r.final_consensus := by
  unfold profileRowFor at h
  by_cases ht : (pyTrim pe.1 == "") = true
  · simp [ht] at h
  · rcases hdc : determine_consensus pe.2 with ⟨fn, st, ex⟩
    rw [hdc] at h
    cases fn with
    | none => simp [ht] at h
    | some f =>
      simp only [Bool.not_eq_true] at ht
      simp only [ht, Bool.false_eq_true, if_false, Option.some.injEq] at h
      subst h
      exact ⟨rfl, by simpa using ht, rfl⟩

theorem profileRowFor_some_of {t : ClassLookup} {pe : String × ProteinData}
    (ht : pyTrim pe.1 ≠ "") (hfn : (determine_consensus pe.2).final_name ≠ none) :
    ∃ r, profileRowFor t pe = some r ∧ r.protein_id = pe.1 := by
  have ht' : (pyTrim pe.1 == "") = false := by simpa using ht
  unfold profileRowFor
  rcases hdc : determine_consensus pe.2 with ⟨fn, st, ex⟩
  cases fn with
  | none => rw [hdc] at hfn; simp at hfn
  | some f =>
    simp only [ht', Bool.false_eq_true, if_false]
    exact ⟨_, rfl, rfl⟩

theorem eq_of_nodup_keys {α β : Type} {l : List (α × β)}
    (h : (l.map Prod.fst).Nodup) {a b : α × β}
    (ha : a ∈ l) (hb : b ∈ l) (hfst : a.1 = b.1) : a = b := by
  induction l with
  | nil => simp at ha
  | cons hd tl ih =>
    rw [List.map_cons, List.nodup_cons] at h
    obtain ⟨hhd, htl⟩ := h
    rcases List.mem_cons.mp ha with rfl | ha' <;> rcases List.mem_cons.mp hb with rfl | hb'
    · rfl
    · exact absurd (by rw [hfst]; exact List.mem_map_of_mem Prod.fst hb') hhd
    · exact absurd (by rw [← hfst]; exact List.mem_map_of_mem Prod.fst ha') hhd
    · exact ih htl ha' hb'

/-! ## Claim C5: final name is None exactly on FILTERED/ERROR, and exactly
those proteins are dropped from the profile -/

/-- C5: for every evidence record the final name is `None` iff the status is
FILTERED or ERROR, and (given unique protein identifiers, as in the Python
dict) a valid protein appears in the written profile iff its status is
neither FILTERED nor ERROR. -/
theorem c5_none_iff_dropped (e : ProteinData) (t : ClassLookup)
    (entries : List (String × ProteinData)) (p : String)
    (hnd : (entries.map Prod.fst).Nodup) (hmem : (p, e) ∈ entries)
    (hp : pyTrim p ≠ "") :
    ((determine_consensus e).final_name = none ↔
      ((determine_consensus e).status = Status.FILTERED ∨
       (determine_consensus e).status = Status.ERROR)) ∧
    ((∃ r ∈ buildProfileRows t entries, r.protein_id = p) ↔
      ¬((determine_consensus e).status = Status.FILTERED ∨
        (determine_consensus e).status = Status.ERROR)) := by
  refine ⟨final_name_none_iff e, ?_, ?_⟩
  · rintro ⟨r, hr, hid⟩
    rw [buildProfileRows, List.mem_filterMap] at hr
    obtain ⟨pe, hpe, hsome⟩ := hr
    obtain ⟨hid', _, hfn⟩ := profileRowFor_eq_some hsome
    have hpeq : pe = (p, e) := eq_of_nodup_keys hnd hpe hmem (by rw [← hid', hid])
    have h2 : pe.2 = e := by rw [hpeq]
    rw [h2] at hfn
    intro hor
    have hnone := (final_name_none_iff e).mpr hor
    rw [hnone] at hfn
    exact Option.noConfusion hfn
  · intro hst
    have hfn : (determine_consensus e).final_name ≠ none :=
      fun hno => hst ((final_name_none_iff e).mp hno)
    obtain ⟨r, hr, hid⟩ := @profileRowFor_some_of t (p, e) hp hfn
    exact ⟨r, by rw [buildProfileRows, List.mem_filterMap]; exact ⟨(p, e), hmem, hr⟩, hid⟩

/-- Witness for C5: a concrete AGREE protein appears in the profile. -/
theorem c5_none_iff_dropped_witness :
    ∃ r ∈ buildProfileRows []
      [("1004153.3@locus1",
        { padloc_orig := some "cas_type_I-B", padloc_mapped := some "Cas_I-B",
          df_orig := some "CAS_Class1-Subtype-I-B", df_mapped := some "Cas_I-B",
          forward_blast := none, reverse_blast := none })],
      r.protein_id = "1004153.3@locus1" :=
  (c5_none_iff_dropped
    { padloc_orig := some "cas_type_I-B", padloc_mapped := some "Cas_I-B",
      df_orig := some "CAS_Class1-Subtype-I-B", df_mapped := some "Cas_I-B",
      forward_blast := none, reverse_blast := none }
    [] _ "1004153.3@locus1" (by decide) (by decide) (by decide)).2.mpr (by decide)

/-! ## Claim C6: the BLAST-only decision path -/

/-- C6: with no classifier evidence, the consensus requires both search
directions with identical names (else FILTERED with a reason naming the
deficiency), parseable forward metrics (else FILTERED), and then the metric
filter decides between BLAST (with the agreed name) and FILTERED (with the
filter's reason). -/
theorem c6_blast_only (e : ProteinData)
    (hp : has_padloc e = false) (hd : has_df e = false) :
    ((fwdName e = none ∨ revName e = none) →
      determine_consensus e = ⟨none, Status.FILTERED,
        "Insufficient BLAST evidence (need both forward and reverse)"⟩) ∧
    (∀ f r, fwdName e = some f → revName e = some r → f ≠ r →
      determine_consensus e = ⟨none, Status.FILTERED,
        "BLAST names disagree: " ++ f ++ " vs " ++ r⟩) ∧
    (∀ f, fwdName e = some f → revName e = some f →
      extract_blast_metrics e.forward_blast = none →
      determine_consensus e =
        ⟨none, Status.FILTERED, "Could not parse forward BLAST metrics"⟩) ∧
    (∀ f m, fwdName e = some f → revName e = some f →
      extract_blast_metrics e.forward_blast = some m →
      ((passes_blast_filtering (some m)).1 = true →
        determine_consensus e = ⟨some f, Status.BLAST,
          "BLAST-only hit passed filtering: " ++ (passes_blast_filtering (some m)).2⟩) ∧
      ((passes_blast_filtering (some m)).1 = false →
        determine_consensus e = ⟨none, Status.FILTERED,
          "BLAST-only hit failed filtering: " ++ (passes_blast_filtering (some m)).2⟩)) := by
  refine ⟨?_, ?_, ?_, ?_⟩
  · intro hno
    unfold determine_consensus
    rcases hno with hno | hno <;>
      simp [hp, hd, has_forward, has_reverse, hno]
  · intro f r hf hr hne
    unfold determine_consensus
    simp [hp, hd, has_forward, has_reverse, hf, hr, hne, pyStr]
  · intro f hf hr hm
    unfold determine_consensus
    simp [hp, hd, has_forward, has_reverse, hf, hr, hm]
  · intro f m hf hr hm
    constructor <;> intro hpass <;> unfold determine_consensus <;>
      simp [hp, hd, has_forward, has_reverse, hf, hr, hm, hpass, pyStr]

/-- Witness for C6: a passing BLAST-only record, a disagreeing record, and an
absent-direction record. -/
theorem c6_blast_only_witness :
    determine_consensus
      { padloc_orig := none, padloc_mapped := none, df_orig := none, df_mapped := none,
        forward_blast := some "SystemX(95.0%, E=1.0e-50, L=300, Q=300, S=305)",
        reverse_blast := some "SystemX(94.0%, E=2.0e-40)" } =
      ⟨some "SystemX", Status.BLAST, "BLAST-only hit passed filtering: Passed filtering"⟩ ∧
    determine_consensus
      { padloc_orig := none, padloc_mapped := none, df_orig := none, df_mapped := none,
        forward_blast := some "SystemX(95.0%, E=1.0e-50, L=300, Q=300, S=305)",
        reverse_blast := some "SystemY(94.0%, E=2.0e-40)" } =
      ⟨none, Status.FILTERED, "BLAST names disagree: SystemX vs SystemY"⟩ ∧
    determine_consensus
      { padloc_orig := none, padloc_mapped := none, df_orig := none, df_mapped := none,
        forward_blast := some "SystemX(95.0%, E=1.0e-50, L=300, Q=300, S=305)",
        reverse_blast := none } =
      ⟨none, Status.FILTERED, "Insufficient BLAST evidence (need both forward and reverse)"⟩ := by
  refine ⟨?_, ?_, ?_⟩
  · exact ((c6_blast_only _ (by decide) (by decide)).2.2.2 "SystemX"
      { name := "SystemX", pident := "95.0", evalue := "1.0e-50",
        length := 300, qlen := 300, slen := 305 }
      (by decide) (by decide) (by decide)).1 (by decide)
  · exact (c6_blast_only _ (by decide) (by decide)).2.1 "SystemX" "SystemY"
      (by decide) (by decide) (by decide)
  · exact (c6_blast_only _ (by decide) (by decide)).1 (Or.inr (by decide))

/-! ## Claim C7: the BLAST metric filter -/

theorem qs_ratio_pos_eq {m : BlastMetrics} (h : 0 < m.slen) :
    qs_ratio m = (m.qlen : ℚ) / (m.slen : ℚ) := by
  rw [qs_ratio, if_pos h, Rat.divInt_eq_div]

theorem avg_length_eq (m : BlastMetrics) :
    avg_length m = ((m.qlen : ℚ) + (m.slen : ℚ)) / 2 := by
  rw [avg_length, Rat.divInt_eq_div]; push_cast; ring

theorem coverage_pos_eq {m : BlastMetrics} (h : 0 < avg_length m) :
    coverage m = (m.length : ℚ) / avg_length m := by
  rw [coverage, if_pos h, ratDiv_eq, Rat.divInt_eq_div]
  norm_num

/-- C7: the filter passes exactly when both guarded ratios lie in
`[0.8, 1.25]`; a non-positive subject length zeroes the first ratio and fails
the filter; on failure the reason names the failing ratio, rendered to three
decimal places; and on the positive-denominator domain the guarded ratios are
the true quotients `Q/S` and `L/((Q+S)/2)`. -/
theorem c7_metric_filter (m : BlastMetrics) :
    ((passes_blast_filtering (some m)).1 = true ↔
      ((0.8 : ℚ) ≤ qs_ratio m ∧ qs_ratio m ≤ (1.25 : ℚ) ∧
       (0.8 : ℚ) ≤ coverage m ∧ coverage m ≤ (1.25 : ℚ))) ∧
    (m.slen ≤ 0 → qs_ratio m = 0 ∧ (passes_blast_filtering (some m)).1 = false) ∧
    ((passes_blast_filtering (some m)).1 = false →
      (¬((0.8 : ℚ) ≤ qs_ratio m ∧ qs_ratio m ≤ (1.25 : ℚ)) ∧
        (passes_blast_filtering (some m)).2 =
          "Q/S ratio " ++ formatQ3 (qs_ratio m) ++ " outside 0.8-1.25") ∨
      (((0.8 : ℚ) ≤ qs_ratio m ∧ qs_ratio m ≤ (1.25 : ℚ)) ∧
        ¬((0.8 : ℚ) ≤ coverage m ∧ coverage m ≤ (1.25 : ℚ)) ∧
        (passes_blast_filtering (some m)).2 =
          "Coverage " ++ formatQ3 (coverage m) ++ " outside 0.8-1.25")) ∧
    ((passes_blast_filtering (some m)).1 = true →
      (passes_blast_filtering (some m)).2 = "Passed filtering") ∧
    (0 < m.slen → qs_ratio m = (m.qlen : ℚ) / (m.slen : ℚ)) ∧
    (avg_length m = ((m.qlen : ℚ) + (m.slen : ℚ)) / 2 ∧
      (0 < avg_length m → coverage m = (m.length : ℚ) / avg_length m)) ∧
    passes_blast_filtering none = (false, "No metrics") := by
  have hb : ∀ q : ℚ, (ratio_lower ≤ q ∧ q ≤ ratio_upper) ↔
      ((0.8 : ℚ) ≤ q ∧ q ≤ (1.25 : ℚ)) := by
    intro q; rw [ratio_lower_eq, ratio_upper_eq]
  refine ⟨?_, ?_, ?_, ?_, fun h => qs_ratio_pos_eq h,
    ⟨avg_length_eq m, fun h => coverage_pos_eq h⟩, rfl⟩
  · simp only [passes_blast_filtering, hb]
    split_ifs with h1 h2
    · exact ⟨fun _ => ⟨h1.1, h1.2, h2.1, h2.2⟩, fun _ => rfl⟩
    · exact ⟨fun hc => absurd hc (by simp),
        fun hcon => absurd ⟨hcon.2.2.1, hcon.2.2.2⟩ h2⟩
    · exact ⟨fun hc => absurd hc (by simp), fun hcon => absurd ⟨hcon.1, hcon.2.1⟩ h1⟩
  · intro hs
    have hqs : qs_ratio m = 0 := by
      rw [qs_ratio, if_neg (not_lt.mpr hs)]
    refine ⟨hqs, ?_⟩
    have hfail : ¬(ratio_lower ≤ qs_ratio m ∧ qs_ratio m ≤ ratio_upper) := by
      rw [hqs, ratio_lower_eq]
      rintro ⟨h08, _⟩
      norm_num at h08
    simp only [passes_blast_filtering, if_pos hfail]
  · intro hfail
    simp only [passes_blast_filtering, hb] at hfail ⊢
    split_ifs at hfail ⊢ with h1 h2
    · exact Or.inr ⟨h1, h2, rfl⟩
    · exact Or.inl ⟨h1, rfl⟩
  · intro hpass
    simp only [passes_blast_filtering] at hpass ⊢
    split_ifs at hpass ⊢
    · rfl

/-- Witness for C7: a length-mismatched hit fails with the `Q/S ratio 0.600`
reason, and a zero subject length zeroes the ratio and fails the filter. -/
theorem c7_metric_filter_witness :
    (passes_blast_filtering
      (some { name := "SystemX", pident := "95.0", evalue := "1.0e-50",
              length := 300, qlen := 300, slen := 500 })).2 =
      "Q/S ratio 0.600 outside 0.8-1.25" ∧
    (qs_ratio { name := "SystemY", pident := "90.0", evalue := "1.0e-10",
                length := 100, qlen := 100, slen := 0 } = 0 ∧
     (passes_blast_filtering
       (some { name := "SystemY", pident := "90.0", evalue := "1.0e-10",
               length := 100, qlen := 100, slen := 0 })).1 = false) := by
  constructor
  · have hd := (c7_metric_filter
      { name := "SystemX", pident := "95.0", evalue := "1.0e-50",
        length := 300, qlen := 300, slen := 500 }).2.2.1 (by decide)
    rcases hd with ⟨_, h⟩ | ⟨hin, _, _⟩
    · exact h.trans (by decide)
    · exact absurd hin (by rw [← ratio_lower_eq, ← ratio_upper_eq]; decide)
  · exact (c7_metric_filter
      { name := "SystemY", pident := "90.0", evalue := "1.0e-10",
        length := 100, qlen := 100, slen := 0 }).2.1 (by decide)

/-! ## Claims C1, C3, C4: search-evidence voting -/

theorem dirVote_fst (lbl : String) {s : String} (hs : s ≠ "") (dc : Option String)
    (fn : Option String) :
    (dirVote lbl (some s) dc fn).1 = if fn = some s then 1 else 0 := by
  cases fn with
  | none => simp [dirVote]
  | some f =>
    simp only [dirVote]
    by_cases hf : f = s
    · subst hf
      have h1 : supports (some f) f = true := by simp [supports, hs]
      simp [h1]
    · have h1 : supports (some s) f = false := by simp [supports, hf]
      cases hsup : supports dc f <;> simp [h1, hsup, hf]

theorem dirVote_snd (lbl : String) {pc : Option String} {s : String} (hs : s ≠ "")
    (hpc : supports pc s = false) (fn : Option String) :
    (dirVote lbl pc (some s) fn).2.1 = if fn = some s then 1 else 0 := by
  cases fn with
  | none => simp [dirVote]
  | some f =>
    simp only [dirVote]
    by_cases hf : f = s
    · subst hf
      simp only [hpc, Bool.false_eq_true, if_false]
      simp [supports, hs]
    · cases hsup : supports pc f <;> simp [hsup, supports, hf]

theorem agree_guard_false {e : ProteinData}
    (hnagree : ¬(padloc_has_mapping e = true ∧ df_has_mapping e = true ∧
      e.padloc_mapped = e.df_mapped)) :
    (padloc_has_mapping e && df_has_mapping e && (e.padloc_mapped == e.df_mapped))
      = false := by
  by_cases h1 : padloc_has_mapping e = true
  · by_cases h2 : df_has_mapping e = true
    · have hne : e.padloc_mapped ≠ e.df_mapped := fun hc => hnagree ⟨h1, h2, hc⟩
      simp [h1, h2, hne]
    · have h2' : df_has_mapping e = false := by simpa using h2
      simp [h2']
  · have h1' : padloc_has_mapping e = false := by simpa using h1
    simp [h1']

/-- C1: in the voting phase (both classifiers present, at least one canonical
mapping, no canonical agreement, mappings non-empty), each classifier with a
mapping scores 1 self-vote plus one vote per search direction whose extracted
name equals its canonical mapping, and a strict winner that has a canonical
mapping yields status RESOLVED with its mapping as final name. -/
theorem c1_voting_resolved (e : ProteinData) (hp : has_padloc e = true)
    (hd : has_df e = true) (hm : (padloc_has_mapping e || df_has_mapping e) = true)
    (hnagree : ¬(padloc_has_mapping e = true ∧ df_has_mapping e = true ∧
      e.padloc_mapped = e.df_mapped))
    (hpne : e.padloc_mapped ≠ some "") (hdne : e.df_mapped ≠ some "") :
    (padloc_has_mapping e = true →
      padloc_votes e = 1 + (if fwdName e = e.padloc_mapped then 1 else 0)
        + (if revName e = e.padloc_mapped then 1 else 0)) ∧
    (df_has_mapping e = true →
      df_votes e = 1 + (if fwdName e = e.df_mapped then 1 else 0)
        + (if revName e = e.df_mapped then 1 else 0)) ∧
    (padloc_votes e > df_votes e → padloc_has_mapping e = true →
      (determine_consensus e).final_name = e.padloc_mapped ∧
      (determine_consensus e).status = Status.RESOLVED) ∧
    (df_votes e > padloc_votes e → df_has_mapping e = true →
      (determine_consensus e).final_name = e.df_mapped ∧
      (determine_consensus e).status = Status.RESOLVED) := by
  have hnag' := agree_guard_false hnagree
  refine ⟨?_, ?_, ?_, ?_⟩
  · intro hpm
    obtain ⟨s, hsm, _⟩ := hasMapping_exists hpm
    have hs : s ≠ "" := fun h => hpne (by rw [hsm, h])
    have hpc : padloc_consensus e = some s := by
      rw [padloc_consensus, if_pos hpm, hsm]
    rw [padloc_votes, hpc, dirVote_fst _ hs, dirVote_fst _ hs, hsm]
  · intro hdm
    obtain ⟨s, hsm, _⟩ := hasMapping_exists hdm
    have hs : s ≠ "" := fun h => hdne (by rw [hsm, h])
    have hdcs : df_consensus e = some s := by
      rw [df_consensus, if_pos hdm, hsm]
    have hshadow : supports (padloc_consensus e) s = false := by
      by_cases hpm : padloc_has_mapping e = true
      · obtain ⟨ps, hps, _⟩ := hasMapping_exists hpm
        have hne : s ≠ ps := by
          intro hcon
          exact hnagree ⟨hpm, hdm, by rw [hps, hsm, hcon]⟩
        rw [padloc_consensus, if_pos hpm, hps]
        simp [supports, hne]
      · have hpm' : padloc_has_mapping e = false := by simpa using hpm
        rw [padloc_consensus]
        simp [hpm', supports]
    rw [df_votes, hdcs, dirVote_snd _ hs hshadow, dirVote_snd _ hs hshadow, hsm]
  · intro hv hpm
    have hne : ¬(df_has_mapping e = true ∧ e.padloc_mapped = e.df_mapped) :=
      fun hc => hnagree ⟨hpm, hc.1, hc.2⟩
    unfold determine_consensus
    simp [hp, hd, hm, hnag', hv, hpm, hne]
  · intro hv hdm
    have hnv : ¬(padloc_votes e > df_votes e) := by omega
    have hne : ¬(padloc_has_mapping e = true ∧ e.padloc_mapped = e.df_mapped) :=
      fun hc => hnagree ⟨hc.1, hdm, hc.2⟩
    unfold determine_consensus
    simp [hp, hd, hm, hnag', hv, hnv, hdm, hne]

/-- Witness for C1: the CBASS example of the spec — PADLOC `CBASS_other`
(unmapped), DefenseFinder `CBASS_IIs` (mapped to itself), both search
directions `CBASS_IIs`: 3 votes to 1, RESOLVED as `CBASS_IIs`. -/
theorem c1_voting_resolved_witness :
    df_votes
      { padloc_orig := some "CBASS_other", padloc_mapped := some "No_mapping",
        df_orig := some "CBASS_IIs", df_mapped := some "CBASS_IIs",
        forward_blast := some "CBASS_IIs(98.0%, E=1.0e-50, L=300, Q=300, S=305)",
        reverse_blast := some "CBASS_IIs(97.0%, E=2.0e-40)" } = 3 ∧
    padloc_votes
      { padloc_orig := some "CBASS_other", padloc_mapped := some "No_mapping",
        df_orig := some "CBASS_IIs", df_mapped := some "CBASS_IIs",
        forward_blast := some "CBASS_IIs(98.0%, E=1.0e-50, L=300, Q=300, S=305)",
        reverse_blast := some "CBASS_IIs(97.0%, E=2.0e-40)" } = 1 ∧
    (determine_consensus
      { padloc_orig := some "CBASS_other", padloc_mapped := some "No_mapping",
        df_orig := some "CBASS_IIs", df_mapped := some "CBASS_IIs",
        forward_blast := some "CBASS_IIs(98.0%, E=1.0e-50, L=300, Q=300, S=305)",
        reverse_blast := some "CBASS_IIs(97.0%, E=2.0e-40)" }).final_name =
      some "CBASS_IIs" ∧
    (determine_consensus
      { padloc_orig := some "CBASS_other", padloc_mapped := some "No_mapping",
        df_orig := some "CBASS_IIs", df_mapped := some "CBASS_IIs",
        forward_blast := some "CBASS_IIs(98.0%, E=1.0e-50, L=300, Q=300, S=305)",
        reverse_blast := some "CBASS_IIs(97.0%, E=2.0e-40)" }).status =
      Status.RESOLVED := by
  have h := c1_voting_resolved
    { padloc_orig := some "CBASS_other", padloc_mapped := some "No_mapping",
      df_orig := some "CBASS_IIs", df_mapped := some "CBASS_IIs",
      forward_blast := some "CBASS_IIs(98.0%, E=1.0e-50, L=300, Q=300, S=305)",
      reverse_blast := some "CBASS_IIs(97.0%, E=2.0e-40)" }
    (by decide) (by decide) (by decide) (by decide) (by decide) (by decide)
  have hres := h.2.2.2 (by decide) (by decide)
  exact ⟨(h.2.1 (by decide)).trans (by decide), by decide,
    hres.1.trans (by decide), hres.2⟩

set_option maxHeartbeats 1600000 in
/-- C3: both vote tallies always start at 1 (so are at least 1), and a
RESOLVED outcome arises only for a strict vote winner possessing a canonical
mapping, with that mapping as final name — an unmapped vote winner can never
produce RESOLVED. -/
theorem c3_tally_and_no_unmapped_resolved (e : ProteinData) :
    1 ≤ padloc_votes e ∧ 1 ≤ df_votes e ∧
    ((determine_consensus e).status = Status.RESOLVED →
      ((padloc_votes e > df_votes e ∧ padloc_has_mapping e = true ∧
        (determine_consensus e).final_name = e.padloc_mapped) ∨
       (df_votes e > padloc_votes e ∧ df_has_mapping e = true ∧
        (determine_consensus e).final_name = e.df_mapped))) := by
  refine ⟨by rw [padloc_votes]; omega, by rw [df_votes]; omega, ?_⟩
  unfold determine_consensus
  split_ifs <;> intro hst
  any_goals simp at hst
  · exact Or.inl ⟨by assumption, by assumption, rfl⟩
  · exact Or.inr ⟨by assumption, by assumption, rfl⟩

/-- Witness for C3 at the CBASS example: tallies at least one, and the
RESOLVED outcome comes from the mapped DefenseFinder side. -/
theorem c3_tally_witness :
    (determine_consensus
      { padloc_orig := some "CBASS_other", padloc_mapped := some "No_mapping",
        df_orig := some "CBASS_IIs", df_mapped := some "CBASS_IIs",
        forward_blast := some "CBASS_IIs(98.0%, E=1.0e-50, L=300, Q=300, S=305)",
        reverse_blast := some "CBASS_IIs(97.0%, E=2.0e-40)" }).final_name =
      some "CBASS_IIs" := by
  have h := c3_tally_and_no_unmapped_resolved
    { padloc_orig := some "CBASS_other", padloc_mapped := some "No_mapping",
      df_orig := some "CBASS_IIs", df_mapped := some "CBASS_IIs",
      forward_blast := some "CBASS_IIs(98.0%, E=1.0e-50, L=300, Q=300, S=305)",
      reverse_blast := some "CBASS_IIs(97.0%, E=2.0e-40)" }
  rcases h.2.2 (by decide) with ⟨hgt, _, _⟩ | ⟨_, _, hfn⟩
  · exact absurd hgt (by decide)
  · exact hfn.trans (by decide)

/-- C4: tied votes give status CONFLICT with the composite of both canonical
mappings when both classifiers are mapped, and otherwise status MAPPING with
the composite of both original calls (even though one side may have a
canonical mapping). -/
theorem c4_tie (e : ProteinData) (hp : has_padloc e = true) (hd : has_df e = true)
    (hm : (padloc_has_mapping e || df_has_mapping e) = true)
    (hnagree : ¬(padloc_has_mapping e = true ∧ df_has_mapping e = true ∧
      e.padloc_mapped = e.df_mapped))
    (htie : padloc_votes e = df_votes e) :
    (padloc_has_mapping e = true → df_has_mapping e = true →
      determine_consensus e =
        ⟨some ("(p::" ++ pyStr e.padloc_mapped ++ "|d::" ++ pyStr e.df_mapped ++ ")"),
         Status.CONFLICT,
         "Tied votes " ++ toString (padloc_votes e) ++ "vs" ++ toString (df_votes e) ++
           ": " ++ String.intercalate "; " (blast_evidence e)⟩) ∧
    (¬(padloc_has_mapping e = true ∧ df_has_mapping e = true) →
      determine_consensus e =
        ⟨some (composite_orig e), Status.MAPPING,
         "Tied votes with mapping issues: " ++
           String.intercalate "; " (blast_evidence e)⟩) := by
  have hnag' := agree_guard_false hnagree
  have hnv1 : ¬(padloc_votes e > df_votes e) := by omega
  have hnv2 : ¬(df_votes e > padloc_votes e) := by omega
  constructor
  · intro hpm hdm
    have hne : e.padloc_mapped ≠ e.df_mapped := fun hc => hnagree ⟨hpm, hdm, hc⟩
    unfold determine_consensus
    simp [hp, hd, hm, hnag', hnv1, hnv2, hpm, hdm, hne]
  · intro hnot
    have hand : (padloc_has_mapping e && df_has_mapping e) = false := by
      by_cases h1 : padloc_has_mapping e = true
      · by_cases h2 : df_has_mapping e = true
        · exact absurd ⟨h1, h2⟩ hnot
        · have h2' : df_has_mapping e = false := by simpa using h2
          simp [h2']
      · have h1' : padloc_has_mapping e = false := by simpa using h1
        simp [h1']
    unfold determine_consensus
    simp [hp, hd, hm, hnag', hnv1, hnv2, hand]

/-- Witness for C4: a both-mapped tie yields CONFLICT over the mappings, and a
one-sided-mapping tie yields MAPPING over the original calls. -/
theorem c4_tie_witness :
    determine_consensus
      { padloc_orig := some "PA", padloc_mapped := some "CanonA",
        df_orig := some "DB", df_mapped := some "CanonB",
        forward_blast := none, reverse_blast := none } =
      ⟨some "(p::CanonA|d::CanonB)", Status.CONFLICT, "Tied votes 1vs1: "⟩ ∧
    determine_consensus
      { padloc_orig := some "PA", padloc_mapped := some "CanonA",
        df_orig := some "DB", df_mapped := some "No_mapping",
        forward_blast := none, reverse_blast := none } =
      ⟨some "(p::PA|d::DB)", Status.MAPPING, "Tied votes with mapping issues: "⟩ := by
  constructor
  · exact ((c4_tie
      { padloc_orig := some "PA", padloc_mapped := some "CanonA",
        df_orig := some "DB", df_mapped := some "CanonB",
        forward_blast := none, reverse_blast := none }
      (by decide) (by decide) (by decide) (by decide) (by decide)).1
      (by decide) (by decide)).trans (by decide)
  · exact ((c4_tie
      { padloc_orig := some "PA", padloc_mapped := some "CanonA",
        df_orig := some "DB", df_mapped := some "No_mapping",
        forward_blast := none, reverse_blast := none }
      (by decide) (by decide) (by decide) (by decide) (by decide)).2
      (by decide)).trans (by decide)

/-! ## Claim C8: suffix handling of directional-search identifiers -/

theorem splitChar_not_mem {c : Char} {l : List Char} (h : c ∉ l) :
    splitChar c l = [l] := by
  induction l with
  | nil => rfl
  | cons a as ih =>
    have hne : a ≠ c := fun hc => h (hc ▸ List.mem_cons_self a as)
    have h' : c ∉ as := fun hc => h (List.mem_cons_of_mem a hc)
    simp [splitChar, hne, ih h']

theorem splitChar_append {c : Char} {a : List Char} (b : List Char) (h : c ∉ a) :
    splitChar c (a ++ c :: b) = a :: splitChar c b := by
  induction a with
  | nil => simp [splitChar]
  | cons x xs ih =>
    have hne : x ≠ c := fun hc => h (hc ▸ List.mem_cons_self x xs)
    have h' : c ∉ xs := fun hc => h (List.mem_cons_of_mem x hc)
    simp [splitChar, hne, ih h']

/-- C8 counterexample: the name after `#` is NOT passed through the
exception-respecting classifier rule — `DISARM_1`, an exception-list entry
that `clean_trailing_underscore_one` leaves unchanged, loses its suffix when
it comes from a search identifier. -/
theorem c8_counterexample :
    extract_defense_system_from_blast_id "locus#DISARM_1" = "DISARM" ∧
    clean_trailing_underscore_one "DISARM_1" = "DISARM_1" ∧
    extract_defense_system_from_blast_id "locus#DISARM_1" ≠
      clean_trailing_underscore_one "DISARM_1" := by
  refine ⟨by decide, by decide, by decide⟩

/-- C8 amended: the name extracted after the `#` of a `locus#name` search
identifier is normalized by `clean_defense_system_name`, the unconditional
rule with no exception list: every name ending in exactly `_1` (including
exception-list entries such as `DISARM_1`) loses those two characters, any
other name (e.g. `GAO_19`) is unchanged. -/
theorem c8_blast_id_unconditional_strip (locus name : String)
    (hl : '#' ∉ locus.data) (hn : '#' ∉ name.data) :
    extract_defense_system_from_blast_id (locus ++ "#" ++ name) =
      clean_defense_system_name name ∧
    (∀ b : String, clean_defense_system_name (b ++ "_1") = b) ∧
    (pyEndsWith name "_1" = false → clean_defense_system_name name = name) ∧
    clean_defense_system_name "GAO_19" = "GAO_19" ∧
    clean_defense_system_name "DISARM_1" = "DISARM" := by
  refine ⟨?_, ?_, ?_, by decide, by decide⟩
  · have hdata : (locus ++ "#" ++ name).data = locus.data ++ '#' :: name.data := by
      show (locus.data ++ "#".data) ++ name.data = _
      simp
    have hmem : '#' ∈ (locus ++ "#" ++ name).data := by
      rw [hdata]
      exact List.mem_append_right _ (List.mem_cons_self _ _)
    have hc : pyHasChar '#' (locus ++ "#" ++ name) = true :=
      List.elem_eq_true_of_mem hmem
    rw [extract_defense_system_from_blast_id, if_pos hc, hdata,
      splitChar_append _ hl, splitChar_not_mem hn]
  · intro b
    have hsuf : pyEndsWith (b ++ "_1") "_1" = true := by
      rw [pyEndsWith]
      exact List.isSuffixOf_iff_suffix.mpr ⟨b.data, rfl⟩
    rw [clean_defense_system_name, if_pos hsuf]
    have hlist : (b ++ "_1").data.take ((b ++ "_1").data.length - 2) = b.data := by
      show (b.data ++ "_1".data).take ((b.data ++ "_1".data).length - 2) = b.data
      have hlen : (b.data ++ "_1".data).length - 2 = b.data.length := by simp
      rw [hlen, List.take_left]
    exact congrArg String.mk hlist
  · intro h
    rw [clean_defense_system_name]
    simp [h]

/-- Witness for C8 (amended): a generic `_1` name is stripped when extracted
from a search identifier. -/
theorem c8_blast_id_unconditional_strip_witness :
    extract_defense_system_from_blast_id "ABC123#Wadjet_I_1" = "Wadjet_I" :=
  ((c8_blast_id_unconditional_strip "ABC123" "Wadjet_I_1"
    (by decide) (by decide)).1).trans (by decide)

/-! ## Claim C9: composite placeholders and the classification resolver -/

theorem dropLit_append (p : String) (rest : List Char) :
    dropLit p ⟨p.data ++ rest⟩ = some ⟨rest⟩ := by
  have hpre : p.data.isPrefixOf (p.data ++ rest) = true :=
    List.isPrefixOf_iff_prefix.mpr ⟨rest, rfl⟩
  rw [dropLit]
  show (if (p.data.isPrefixOf (p.data ++ rest)) = true then _ else _) = _
  rw [if_pos hpre]
  show some (⟨(p.data ++ rest).drop p.data.length⟩ : String) = _
  rw [List.drop_left]

theorem takeWhile_middle {p : Char → Bool} {l : List Char}
    (hall : ∀ x ∈ l, p x = true) {c : Char} (hc : p c = false) (r : List Char) :
    (l ++ c :: r).takeWhile p = l ∧ (l ++ c :: r).drop l.length = c :: r := by
  refine ⟨?_, List.drop_left l (c :: r)⟩
  induction l with
  | nil => simp [hc]
  | cons x xs ih =>
    have hx : p x = true := hall x (List.mem_cons_self x xs)
    have h' : ∀ y ∈ xs, p y = true := fun y hy => hall y (List.mem_cons_of_mem x hy)
    simp [hx, ih h']

theorem bne_all_of_not_mem {c : Char} {l : List Char} (h : c ∉ l) :
    ∀ x ∈ l, (x != c) = true := by
  intro x hx
  exact bne_iff_ne.mpr (fun hc => h (hc ▸ hx))

/-- Well-formed composites split exactly: the regex recovers both raw sides
when the p-side has no `|` and the d-side has no `)`. -/
theorem parseComposite_append (X Y : String) (hX : '|' ∉ X.data) (hY : ')' ∉ Y.data) :
    parseComposite ("(p::" ++ X ++ "|d::" ++ Y ++ ")") = some (X, Y) := by
  have hS : ("(p::" ++ X ++ "|d::" ++ Y ++ ")").data =
      "(p::".data ++ (X.data ++ '|' :: 'd' :: ':' :: ':' :: (Y.data ++ [')'])) := by
    show ((("(p::".data ++ X.data) ++ "|d::".data) ++ Y.data) ++ ")".data = _
    simp
  have hSeq : ("(p::" ++ X ++ "|d::" ++ Y ++ ")") =
      ⟨"(p::".data ++ (X.data ++ '|' :: 'd' :: ':' :: ':' :: (Y.data ++ [')']))⟩ :=
    congrArg String.mk hS
  have htw := takeWhile_middle (bne_all_of_not_mem hX)
    (show ('|' != '|') = false by decide) ('d' :: ':' :: ':' :: (Y.data ++ [')']))
  have htw2 := takeWhile_middle (bne_all_of_not_mem hY)
    (show (')' != ')') = false by decide) ([] : List Char)
  rw [parseComposite, hSeq, dropLit_append]
  simp only [Option.some_bind]
  rw [htw.1, htw.2]
  rw [show ('|' :: 'd' :: ':' :: ':' :: (Y.data ++ [')'])) = "|d::".data ++ (Y.data ++ [')'])
    from rfl]
  rw [dropLit_append]
  simp only [Option.some_bind]
  rw [htw2.1, htw2.2]
  rw [show ([')'] : List Char) = ")".data ++ [] from rfl]
  rw [dropLit_append]
  rfl

/-- C9 counterexample: a composite built by the consensus engine from a
p-side original call containing `|` is rejected by the resolver's regex and
collapses to the bare `UNMAPPED_TYPE`/`UNMAPPED_OUTCOME` pair even though its
d-side name resolves in the classification table. -/
theorem c9_composite_counterexample :
    (determine_consensus
      { padloc_orig := some "A|B", padloc_mapped := some "No_mapping",
        df_orig := some "CBASS_IIs", df_mapped := some "No_mapping",
        forward_blast := none, reverse_blast := none }).final_name =
      some "(p::A|B|d::CBASS_IIs)" ∧
    clookup [("CBASS_IIs", "CBASS", "Abi")] "CBASS_IIs" = some ("CBASS", "Abi") ∧
    parseComposite "(p::A|B|d::CBASS_IIs)" = none ∧
    lookup_final_classification "(p::A|B|d::CBASS_IIs)" [("CBASS_IIs", "CBASS", "Abi")] =
      ("UNMAPPED_TYPE", "UNMAPPED_OUTCOME") :=
  ⟨by decide, by decide, by decide, by decide⟩

/-- C9 amended: composite placeholders whose p-side contains no `|` and whose
d-side contains no `)` (true of every composite the consensus engine builds
from real tool vocabulary) are accepted and split exactly by the resolver,
and (over a non-empty table, for trimmed non-empty sides) resolve to the
composite per-side type/outcome pair — never a bare UNMAPPED for the whole
entry. -/
theorem c9_composite_roundtrip (X Y : String) (t : ClassLookup)
    (hX : '|' ∉ X.data) (hY : ')' ∉ Y.data) :
    parseComposite ("(p::" ++ X ++ "|d::" ++ Y ++ ")") = some (X, Y) ∧
    (t.isEmpty = false → pyTrim X = X → pyTrim Y = Y → X ≠ "" → Y ≠ "" →
      lookup_final_classification ("(p::" ++ X ++ "|d::" ++ Y ++ ")") t =
        ("(" ++ resolve_part "p::" ((clookup t X).map Prod.fst) ++ "|" ++
           resolve_part "d::" ((clookup t Y).map Prod.fst) ++ ")",
         "(" ++ resolve_part "p::" ((clookup t X).map Prod.snd) ++ "|" ++
           resolve_part "d::" ((clookup t Y).map Prod.snd) ++ ")")) := by
  have hpar := parseComposite_append X Y hX hY
  refine ⟨hpar, ?_⟩
  intro ht hTX hTY hX0 hY0
  have hS : ("(p::" ++ X ++ "|d::" ++ Y ++ ")").data =
      "(p::".data ++ (X.data ++ '|' :: 'd' :: ':' :: ':' :: (Y.data ++ [')'])) := by
    show ((("(p::".data ++ X.data) ++ "|d::".data) ++ Y.data) ++ ")".data = _
    simp
  have hstart : pyStartsWith ("(p::" ++ X ++ "|d::" ++ Y ++ ")") "(p::" = true := by
    rw [pyStartsWith, hS]
    exact List.isPrefixOf_iff_prefix.mpr ⟨_, rfl⟩
  have hin : pyInStr "|d::" ("(p::" ++ X ++ "|d::" ++ Y ++ ")") = true := by
    rw [pyInStr, decide_eq_true_eq, hS]
    exact ⟨"(p::".data ++ X.data, Y.data ++ [')'], by simp⟩
  have hbX : (X == "") = false := beq_eq_false_iff_ne.mpr hX0
  have hbY : (Y == "") = false := beq_eq_false_iff_ne.mpr hY0
  rw [lookup_final_classification]
  simp only [ht, Bool.false_eq_true, if_false, hstart, hin, Bool.and_self, if_true,
    hpar, hTX, hTY, hbX, hbY, Option.some_bind]

/-- Witness for C9 (amended): the spec's own MAPPING composite resolves
per side. -/
theorem c9_composite_roundtrip_witness :
    parseComposite ("(p::" ++ "CBASS_other" ++ "|d::" ++ "CBASS_IIs" ++ ")") =
      some ("CBASS_other", "CBASS_IIs") ∧
    lookup_final_classification ("(p::" ++ "CBASS_other" ++ "|d::" ++ "CBASS_IIs" ++ ")")
      [("CBASS_IIs", "CBASS", "Abi")] =
      ("(p::UNMAPPED|d::CBASS)", "(p::UNMAPPED|d::Abi)") := by
  have h := c9_composite_roundtrip "CBASS_other" "CBASS_IIs"
    [("CBASS_IIs", "CBASS", "Abi")] (by decide) (by decide)
  exact ⟨h.1,
    (h.2 (by decide) (by decide) (by decide) (by decide) (by decide)).trans (by decide)⟩

/-! ## Claim C10: pattern-extractor termination -/

/-- C10 counterexample: with no profile file at all, `main` does NOT
terminate successfully with a "nothing to curate" outcome — it prints an
ERROR diagnostic and exits with status 1 (`sys.exit(1)` in
`load_consensus_files`). -/
theorem c10_no_files_counterexample :
    extractor_main [] = ExtractOutcome.fatalNoFiles ∧
    ExtractOutcome.fatalNoFiles ≠ ExtractOutcome.nothingToCurate :=
  ⟨rfl, by simp⟩

/-- C10 amended: when profile files exist but no row across all of them has
status MAPPING or CONFLICT, the extractor terminates successfully with the
explicit "nothing to curate" outcome and writes no curation file; when no
profile file exists at all it instead terminates with a fatal error exit. -/
theorem c10_extractor_termination (files : List (List ProfileRow)) :
    (files = [] → extractor_main files = ExtractOutcome.fatalNoFiles) ∧
    (files ≠ [] →
      (∀ f ∈ files, ∀ r ∈ f, r.status ≠ Status.MAPPING ∧ r.status ≠ Status.CONFLICT) →
      extractor_main files = ExtractOutcome.nothingToCurate) := by
  constructor
  · rintro rfl
    rfl
  · intro hne hclean
    have h0 : files.isEmpty = false := by
      cases files with
      | nil => exact absurd rfl hne
      | cons f fs => rfl
    have hprob : problematicRows files = [] := by
      rw [problematicRows, List.flatten_eq_nil_iff]
      intro l hl
      obtain ⟨f, hf, rfl⟩ := List.mem_map.mp hl
      rw [List.filter_eq_nil_iff]
      intro r hr
      have hc := hclean f hf r hr
      simp [hc.1, hc.2]
    rw [extractor_main]
    simp [h0, hprob]

/-- Witness for C10 (amended): one clean profile file gives the
nothing-to-curate outcome; no file gives the fatal outcome. -/
theorem c10_extractor_termination_witness :
    extractor_main [[]] = ExtractOutcome.nothingToCurate ∧
    extractor_main [] = ExtractOutcome.fatalNoFiles :=
  ⟨(c10_extractor_termination [[]]).2 (by simp) (by simp),
   (c10_extractor_termination []).1 rfl⟩

end Ptolemaea
